import Mathlib

/-!
Verification of the Deluge torrent-lifecycle orchestrator
(`deluge/core/torrentmanager.py` and `deluge/core/torrent.py`) against its
natural-language specification.  The Python code is shallowly embedded:
pure decision logic becomes Lean functions, stateful methods become explicit
state-passing functions, engine (libtorrent) behaviour is abstracted into
explicit records of flags describing what the engine would report or whether
a given engine call would raise, and the file-system side effects of the
persistence routines are recorded as explicit traces of file operations.
-/

namespace Deluge

/-! ## File-operation traces for the persistence routines (claim C1)

`TorrentManager.save_state` and `TorrentManager.save_resume_data_file`
perform sequences of file operations.  We record the sequence each method
performs on its success path as a list of `FsOp` values, taken line by line
from the source. -/

/-- One file-system operation performed by a persistence routine. -/
inductive FsOp where
  | openWrite (path : String)
  | write (path : String)
  | flush (path : String)
  | fsync (path : String)
  | close (path : String)
  | rename (src dst : String)
deriving DecidableEq, Repr

def torrentsStatePath : String := "state/torrents.state"

def torrentsStateNewPath : String := "state/torrents.state.new"

def torrentsFastresumePath : String := "state/torrents.fastresume"

/-- The file operations performed by `TorrentManager.save_state` on its
success path: it opens `torrents.state.new`, pickles the state into it,
flushes, fsyncs, closes, and then moves the temporary file over
`torrents.state` (torrentmanager.py lines 746-769). -/
def save_state_trace : List FsOp :=
  [ .openWrite torrentsStateNewPath
  , .write torrentsStateNewPath
  , .flush torrentsStateNewPath
  , .fsync torrentsStateNewPath
  , .close torrentsStateNewPath
  , .rename torrentsStateNewPath torrentsStatePath ]

/-- The file operations performed by `TorrentManager.save_resume_data_file`
on its success path: it opens the canonical `torrents.fastresume` path
directly in write mode, writes the bencoded data, flushes, fsyncs and
closes.  There is no temporary file and no rename
(torrentmanager.py lines 818-833). -/
def save_resume_data_file_trace : List FsOp :=
  [ .openWrite torrentsFastresumePath
  , .write torrentsFastresumePath
  , .flush torrentsFastresumePath
  , .fsync torrentsFastresumePath
  , .close torrentsFastresumePath ]

/-- A trace follows the atomic write-temp-then-rename pattern for a
canonical path when it writes (open, write, flush, fsync, close) a
temporary path distinct from the canonical one and finally renames the
temporary path over the canonical path. -/
def isAtomicReplace (trace : List FsOp) (canonical : String) : Bool :=
  match trace with
  | [.openWrite t1, .write t2, .flush t3, .fsync t4, .close t5, .rename t6 dst] =>
      t1 = t2 && t2 = t3 && t3 = t4 && t4 = t5 && t5 = t6 &&
      dst = canonical && t1 ≠ canonical
  | _ => false

/-- Claim C1 as stated: both persistence writes follow the
write-temp/flush/fsync/rename pattern over their canonical paths. -/
def c1_claim : Prop :=
  isAtomicReplace save_state_trace torrentsStatePath = true ∧
  isAtomicReplace save_resume_data_file_trace torrentsFastresumePath = true

/-! ## The derived lifecycle state machine (claims C2, C9)

`Torrent.update_state` recomputes the derived state from the
libtorrent-reported status.  The libtorrent coarse states come from
`deluge.common.LT_TORRENT_STATE`, which is referenced by
`torrent.py` but is not among the provided source files. -/

/-- Modelled from the spec: the engine-reported coarse phases.  The module
`deluge.common` defining `LT_TORRENT_STATE` is not under src; section 4.2 of
the spec lists the coarse phases Queued-for-check, Checking, Downloading,
Downloading-Metadata, Finished, Seeding and Allocating, and
`torrentmanager.py` line 1091 additionally references the state string
"Checking Resume Data". -/
inductive LtState where
  | queuedForChecking
  | checkingFiles
  | downloadingMetadata
  | downloading
  | finished
  | seeding
  | allocating
  | checkingResumeData
deriving DecidableEq, Repr

/-- Modelled from the spec: the state-name mapping `LT_TORRENT_STATE` of the
missing `deluge.common` module, sending each coarse phase to the display
string used by the orchestrator. -/
def ltStateName : LtState → String
  | .queuedForChecking => "Queued"
  | .checkingFiles => "Checking"
  | .downloadingMetadata => "Downloading Metadata"
  | .downloading => "Downloading"
  | .finished => "Finished"
  | .seeding => "Seeding"
  | .allocating => "Allocating"
  | .checkingResumeData => "Checking Resume Data"

/-- Everything `update_state` reads: the coarse phase, the error string and
the paused and auto-managed flags of the handle plus the global session
pause flag. -/
structure EngineStatus where
  ltstate : LtState
  error : String
  handlePaused : Bool
  handleAutoManaged : Bool
  sessionPaused : Bool
deriving DecidableEq, Repr

/-- The observable outcome of `Torrent.update_state`: the new `state`
string, the status message set when an error is present, and whether
`handle.auto_managed(False)` was invoked. -/
structure UpdateResult where
  state : String
  statusmsg : Option String
  autoManagedDisabled : Bool
deriving DecidableEq, Repr

/-- Shallow embedding of `Torrent.update_state` (torrent.py lines 427-469).
The initial assignment takes the name of the coarse phase; a non-empty
error string forces "Error" (disabling auto-management when the handle is
paused) and returns; the Queued/Checking phases return Paused or Checking
depending on the handle pause flag; otherwise the coarse classification is
computed and then the queue-throttle and pause overrides are applied. -/
def update_state (st : EngineStatus) : UpdateResult :=
  let initial := ltStateName st.ltstate
  if st.error.length > 0 then
    { state := "Error", statusmsg := some st.error,
      autoManagedDisabled := st.handlePaused }
  else if st.ltstate = .queuedForChecking ∨ st.ltstate = .checkingFiles then
    { state := if st.handlePaused then "Paused" else "Checking",
      statusmsg := none, autoManagedDisabled := false }
  else
    let base :=
      if st.ltstate = .downloading ∨ st.ltstate = .downloadingMetadata then
        "Downloading"
      else if st.ltstate = .finished ∨ st.ltstate = .seeding then "Seeding"
      else if st.ltstate = .allocating then "Allocating"
      else initial
    let final :=
      if st.handlePaused ∧ st.handleAutoManaged ∧ ¬ st.sessionPaused then
        "Queued"
      else if st.sessionPaused ∨ (st.handlePaused ∧ ¬ st.handleAutoManaged) then
        "Paused"
      else base
    { state := final, statusmsg := none, autoManagedDisabled := false }

/-! ## Ratio computation (claim C6) -/

/-- The two engine status counters read by `Torrent.get_ratio`. -/
structure RatioStatus where
  all_time_upload : Nat
  total_done : Nat
deriving DecidableEq, Repr

/-- Shallow embedding of `Torrent.get_ratio` (torrent.py lines 509-523):
when `total_done > 0` the ratio is `all_time_upload / total_done`,
otherwise -1.0 is returned to signify infinity. -/
def get_ratio (st : RatioStatus) : Rat :=
  if st.total_done > 0 then
    (st.all_time_upload : Rat) / (st.total_done : Rat)
  else
    -1

/-! ## Theorems for claims C1, C2 and C6 -/

/-- Claim C1 counterexample: the claim as stated is false, because
`save_resume_data_file` does not follow the write-temp-then-rename
pattern: it opens the canonical `torrents.fastresume` path directly for
writing and never renames. -/
theorem c1_counterexample : ¬ c1_claim := by
  intro h
  exact absurd h.2 (by decide)

/-- Claim C1 amended: `save_state` follows the full
write-temp/flush/fsync/atomic-rename sequence over `torrents.state`, but
`save_resume_data_file` writes the recovery-data file by opening the
canonical path directly (truncating it), then flushing and fsyncing, with
no temporary file and no rename. -/
theorem c1_amended_theorem :
    isAtomicReplace save_state_trace torrentsStatePath = true ∧
    save_resume_data_file_trace =
      [ .openWrite torrentsFastresumePath
      , .write torrentsFastresumePath
      , .flush torrentsFastresumePath
      , .fsync torrentsFastresumePath
      , .close torrentsFastresumePath ] ∧
    (save_resume_data_file_trace.all fun op =>
      match op with
      | .rename _ _ => false
      | _ => true) = true := by
  refine ⟨by decide, rfl, by decide⟩

/-- Claim C2: whenever the engine reports a non-empty error string,
`update_state` sets the state to "Error" regardless of the coarse phase,
the pause flags and the auto-managed flag, and when the handle is paused
it disables auto-management on the handle. -/
theorem c2_theorem (st : EngineStatus) (h : st.error ≠ "") :
    (update_state st).state = "Error" ∧
    (st.handlePaused = true → (update_state st).autoManagedDisabled = true) := by
  have hl : st.error.length > 0 := by
    cases he : st.error with
    | mk data =>
      cases data with
      | nil => exact absurd he (by simpa using h)
      | cons a l => simp [String.length, he]
  constructor
  · simp [update_state, hl]
  · intro hp; simp [update_state, hl, hp]

/-- Witness for C2 at a concrete engine status carrying the error string
"disk full" while seeding and paused. -/
theorem c2_witness :
    (update_state ⟨.seeding, "disk full", true, true, false⟩).state = "Error" ∧
    (update_state ⟨.seeding, "disk full", true, true, false⟩).autoManagedDisabled
      = true := by
  have h := c2_theorem ⟨.seeding, "disk full", true, true, false⟩ (by decide)
  exact ⟨h.1, h.2 rfl⟩

/-- Claim C6: `get_ratio` returns -1.0 exactly when `total_done` is zero,
and otherwise returns the upload amount divided by `total_done`; the
guarded division can never be a division by zero. -/
theorem c6_theorem (st : RatioStatus) :
    (get_ratio st = -1 ↔ st.total_done = 0) ∧
    (st.total_done ≠ 0 →
      get_ratio st = (st.all_time_upload : Rat) / (st.total_done : Rat)) := by
  constructor
  · constructor
    · intro h
      by_contra hd
      have hpos : st.total_done > 0 := Nat.pos_of_ne_zero hd
      have hnn : (0 : Rat) ≤ (st.all_time_upload : Rat) / (st.total_done : Rat) :=
        div_nonneg (by positivity) (by positivity)
      rw [get_ratio, if_pos hpos] at h
      rw [h] at hnn
      linarith
    · intro h
      simp [get_ratio, h]
  · intro h
    have hpos : st.total_done > 0 := Nat.pos_of_ne_zero h
    simp [get_ratio, hpos]

/-- Witness for C6 at concrete statuses: 6 bytes uploaded over 4 bytes done
gives ratio 3/2, and zero bytes done with nonzero upload gives -1. -/
theorem c6_witness :
    get_ratio ⟨6, 4⟩ = (6 : Rat) / 4 ∧ get_ratio ⟨7, 0⟩ = -1 := by
  exact ⟨(c6_theorem ⟨6, 4⟩).2 (by decide), (c6_theorem ⟨7, 0⟩).1.mpr rfl⟩

/-! ## Per-torrent engine operations and their boolean results (claim C4)

Each operation of the `Torrent` class issues one or more engine calls.
We describe the engine handle by flags stating what the handle currently
reports and which engine calls would raise an exception (for example
because the handle was invalidated concurrently).  A Python return value
is `Except Unit (Option Bool)`: `.error ()` means an exception escaped the
method, `.ok none` is the bare `return` (Python None), and `.ok (some b)`
is an explicit boolean return. -/

/-- Abstract engine handle: its currently reported flags, and which engine
calls would raise. -/
structure Handle where
  isPaused : Bool
  isAutoManaged : Bool
  isFinished : Bool
  raisesAutoManaged : Bool
  raisesPause : Bool
  raisesResume : Bool
  raisesReannounce : Bool
  raisesScrape : Bool
  raisesRecheck : Bool
  raisesConnectPeer : Bool
  raisesMoveStorage : Bool
deriving DecidableEq, Repr

/-- A Python method result: an escaped exception, None, or a boolean. -/
abbrev PyResult := Except Unit (Option Bool)

/-- Shallow embedding of `Torrent.pause` (torrent.py lines 828-846).
`handle.auto_managed(False)` is called outside any try block, so an
exception there escapes.  If the handle is already paused the method
recomputes the state, emits a state-changed event and returns True;
otherwise `handle.pause()` is guarded and a raise yields False. -/
def Torrent.pause (h : Handle) : PyResult :=
  if h.raisesAutoManaged then .error ()
  else if h.isPaused then .ok (some true)
  else if h.raisesPause then .ok (some false)
  else .ok (some true)

/-- Shallow embedding of `Torrent.resume` (torrent.py lines 848-875).
An auto-managed paused torrent yields a bare return (None), as does a
finished torrent already at its stop ratio when stop-at-ratio is set.
`handle.auto_managed(True)` is called outside any try block when the
auto-managed option is set.  The final `handle.resume()` sits in a
try/except whose except clause is `pass`, so the method returns True even
when the engine resume call raises. -/
def Torrent.resume (h : Handle) (auto_managed stop_at_ratio : Bool)
    (stop_ratio : Rat) (st : RatioStatus) : PyResult :=
  if h.isPaused ∧ h.isAutoManaged then .ok none
  else if h.isFinished ∧ stop_at_ratio ∧ get_ratio st ≥ stop_ratio then .ok none
  else if auto_managed ∧ h.raisesAutoManaged then .error ()
  else .ok (some true)

/-- Shallow embedding of `Torrent.force_reannounce`
(torrent.py lines 951-959). -/
def Torrent.force_reannounce (h : Handle) : PyResult :=
  if h.raisesReannounce then .ok (some false) else .ok (some true)

/-- Shallow embedding of `Torrent.scrape_tracker`
(torrent.py lines 961-969). -/
def Torrent.scrape_tracker (h : Handle) : PyResult :=
  if h.raisesScrape then .ok (some false) else .ok (some true)

/-- Shallow embedding of `Torrent.connect_peer` (torrent.py lines 877-884). -/
def Torrent.connect_peer (h : Handle) : PyResult :=
  if h.raisesConnectPeer then .ok (some false) else .ok (some true)

/-- Shallow embedding of `Torrent.move_storage` (torrent.py lines 886-915):
when the destination does not exist, `os.makedirs` is attempted under an
`except IOError` guard; in Python 2 a failing `os.makedirs` raises
`OSError`, which is not a subclass of `IOError`, so that guard does not
catch it and the failure propagates out of the method.  The
`handle.move_storage` call is guarded by a bare except, so a raise there
yields False; otherwise True is returned. -/
def Torrent.move_storage (h : Handle) (destExists makedirsFails : Bool) :
    PyResult :=
  if ¬ destExists ∧ makedirsFails then .error ()
  else if h.raisesMoveStorage then .ok (some false)
  else .ok (some true)

/-- Shallow embedding of `Torrent.force_recheck`
(torrent.py lines 971-982): both `handle.force_recheck()` and
`handle.resume()` sit in the same try block, so a raise from either yields
False. -/
def Torrent.force_recheck (h : Handle) : PyResult :=
  if h.raisesRecheck ∨ h.raisesResume then .ok (some false)
  else .ok (some true)

/-- Claim C4 as stated: each of the seven operations always reports a
boolean, and returns False exactly when the underlying engine call raised
(so True exactly on engine success). -/
def c4_claim : Prop :=
  ∀ (h : Handle) (am sar : Bool) (sr : Rat) (st : RatioStatus)
    (de mf : Bool),
    (∃ b : Bool, Torrent.resume h am sar sr st = .ok (some b)) ∧
    (h.raisesResume = true →
      Torrent.resume h am sar sr st = .ok (some false)) ∧
    (∃ b : Bool, Torrent.pause h = .ok (some b)) ∧
    (h.raisesPause = true → h.isPaused = false →
      Torrent.pause h = .ok (some false)) ∧
    (Torrent.force_reannounce h = .ok (some (!h.raisesReannounce))) ∧
    (Torrent.scrape_tracker h = .ok (some (!h.raisesScrape))) ∧
    (Torrent.connect_peer h = .ok (some (!h.raisesConnectPeer))) ∧
    (Torrent.move_storage h de mf
      = .ok (some (!(!de && mf) && !h.raisesMoveStorage))) ∧
    (Torrent.force_recheck h = .ok (some (!(h.raisesRecheck || h.raisesResume))))

/-- Claim C4 counterexample: a running torrent whose engine `resume()` call
raises still gets True back from `Torrent.resume`, because the except
clause is `pass` and the method then returns True; so the claim that every
operation returns False when its engine call raises is false. -/
theorem c4_counterexample : ¬ c4_claim := by
  intro hcl
  have h := (hcl ⟨false, false, false, false, false, true, false, false,
      false, false, false⟩ false false 2 ⟨0, 1⟩ true false).2.1 rfl
  have heval : Torrent.resume ⟨false, false, false, false, false, true, false,
      false, false, false, false⟩ false false 2 ⟨0, 1⟩ = .ok (some true) := rfl
  rw [heval] at h
  exact absurd h (by simp)

/-- Claim C4 amended: force_reannounce, scrape_tracker, connect_peer and
force_recheck catch engine exceptions and return True exactly on engine
success; move_storage does so for the engine move call when the
destination exists or directory creation succeeds, but a failing
`os.makedirs` raises OSError which its except-IOError guard does not
catch, so that failure propagates out of the method; pause behaves as
claimed provided the unguarded `auto_managed(False)` call does not itself
raise (returning True when the handle was already paused); resume never
lets the engine resume exception escape but returns True regardless of
it, and returns None rather than a boolean in its auto-managed-paused and
stop-ratio early exits. -/
theorem c4_amended_theorem (h : Handle) (am sar : Bool) (sr : Rat)
    (st : RatioStatus) (de mf : Bool)
    (hpam : h.raisesAutoManaged = false) :
    (Torrent.force_reannounce h = .ok (some (!h.raisesReannounce))) ∧
    (Torrent.scrape_tracker h = .ok (some (!h.raisesScrape))) ∧
    (Torrent.connect_peer h = .ok (some (!h.raisesConnectPeer))) ∧
    ((de = true ∨ mf = false) →
      Torrent.move_storage h de mf = .ok (some (!h.raisesMoveStorage))) ∧
    (Torrent.move_storage h false true = .error ()) ∧
    (Torrent.force_recheck h
      = .ok (some (!(h.raisesRecheck || h.raisesResume)))) ∧
    (Torrent.pause h = .ok (some (h.isPaused || !h.raisesPause))) ∧
    (Torrent.resume h am sar sr st = .ok none ∨
      Torrent.resume h am sar sr st = .ok (some true)) := by
  refine ⟨?_, ?_, ?_, ?_, ?_, ?_, ?_, ?_⟩
  · cases hr : h.raisesReannounce <;> simp [Torrent.force_reannounce, hr]
  · cases hr : h.raisesScrape <;> simp [Torrent.scrape_tracker, hr]
  · cases hr : h.raisesConnectPeer <;> simp [Torrent.connect_peer, hr]
  · rintro (rfl | rfl)
    · cases hr : h.raisesMoveStorage <;> simp [Torrent.move_storage, hr]
    · cases hde : de <;> cases hr : h.raisesMoveStorage <;>
        simp [Torrent.move_storage, hde, hr]
  · simp [Torrent.move_storage]
  · cases h1 : h.raisesRecheck <;> cases h2 : h.raisesResume <;>
      simp [Torrent.force_recheck, h1, h2]
  · cases hp : h.isPaused <;> cases hr : h.raisesPause <;>
      simp [Torrent.pause, hpam, hp, hr]
  · rw [Torrent.resume]
    split
    · exact Or.inl rfl
    · split
      · exact Or.inl rfl
      · rw [if_neg (by simp [hpam])]
        exact Or.inr rfl

/-- Witness for the amended C4 at a concrete handle whose engine resume and
reannounce calls raise: reannounce reports False while resume still
reports True; move_storage to an existing destination reports True, and a
failing directory creation propagates. -/
theorem c4_amended_witness :
    Torrent.force_reannounce ⟨false, false, false, false, false, true, true,
        false, false, false, false⟩ = .ok (some false) ∧
    Torrent.move_storage ⟨false, false, false, false, false, true, true,
        false, false, false, false⟩ true false = .ok (some true) ∧
    Torrent.move_storage ⟨false, false, false, false, false, true, true,
        false, false, false, false⟩ false true = .error () ∧
    (Torrent.resume ⟨false, false, false, false, false, true, true, false,
        false, false, false⟩ true false 2 ⟨0, 1⟩ = .ok none ∨
      Torrent.resume ⟨false, false, false, false, false, true, true, false,
        false, false, false⟩ true false 2 ⟨0, 1⟩ = .ok (some true)) := by
  have h := c4_amended_theorem ⟨false, false, false, false, false, true, true,
      false, false, false, false⟩ true false 2 ⟨0, 1⟩ true false rfl
  exact ⟨h.1, h.2.2.2.1 (Or.inl rfl), h.2.2.2.2.1, h.2.2.2.2.2.2.2⟩

/-! ## The periodic ratio sweep (claim C5)

`TorrentManager.update` iterates over the registry and, for each torrent
with the stop-at-ratio option whose state is not Checking, Allocating,
Paused or Queued and whose ratio has reached the configured stop ratio
while finished, removes it (when remove-at-ratio is set — followed by a
`break` out of the loop) or pauses it (when the handle is not already
paused).  We model the registry as the list of (torrent_id, torrent)
pairs in iteration order. -/

/-- The per-torrent data read by the sweep. -/
structure SweepTorrent where
  stop_at_ratio : Bool
  stop_ratio : Rat
  remove_at_ratio : Bool
  state : String
  status : RatioStatus
  is_finished : Bool
  handlePaused : Bool
deriving DecidableEq, Repr

/-- The sweep skips torrents whose state is Checking, Allocating, Paused or
Queued (torrentmanager.py lines 278-279). -/
def sweepEligibleState (s : String) : Bool :=
  !(s == "Checking" || s == "Allocating" || s == "Paused" || s == "Queued")

/-- The ratio condition of the sweep: current ratio at least the configured
stop ratio, and the torrent finished (torrentmanager.py line 286). -/
def sweepHitsRatio (t : SweepTorrent) : Bool :=
  decide (get_ratio t.status ≥ t.stop_ratio) && t.is_finished

/-- A torrent qualifies for ratio handling in the sweep. -/
def sweepQualifies (t : SweepTorrent) : Bool :=
  t.stop_at_ratio && sweepEligibleState t.state && sweepHitsRatio t

/-- A qualifying torrent the sweep would remove. -/
def sweepRemoves (t : SweepTorrent) : Bool :=
  sweepQualifies t && t.remove_at_ratio

/-- A qualifying torrent the sweep would call pause() on: not marked
remove-at-ratio and with the handle not already paused. -/
def sweepPauses (t : SweepTorrent) : Bool :=
  sweepQualifies t && !t.remove_at_ratio && !t.handlePaused

/-- Shallow embedding of `TorrentManager.update` (torrentmanager.py lines
276-291).  Returns the registry after the sweep together with the ids on
which pause() was invoked.  The nested re-check of the stop_at_ratio
option in the source is unreachable (the outer condition already required
it) and is therefore absorbed.  When a qualifying torrent has
remove-at-ratio set, it is removed and the loop breaks, leaving the rest
of the registry unvisited. -/
def sweep : List (String × SweepTorrent) →
    List (String × SweepTorrent) × List String
  | [] => ([], [])
  | (id, t) :: rest =>
    if t.stop_at_ratio && sweepEligibleState t.state then
      if sweepHitsRatio t then
        if t.remove_at_ratio then
          (rest, [])
        else if !t.handlePaused then
          ((id, t) :: (sweep rest).1, id :: (sweep rest).2)
        else
          ((id, t) :: (sweep rest).1, (sweep rest).2)
      else
        ((id, t) :: (sweep rest).1, (sweep rest).2)
    else
      ((id, t) :: (sweep rest).1, (sweep rest).2)

/-- One-step unfolding of the sweep in terms of the remove/pause
classification of the head torrent. -/
theorem sweep_cons (id : String) (t : SweepTorrent)
    (rest : List (String × SweepTorrent)) :
    sweep ((id, t) :: rest) =
      if sweepRemoves t then (rest, [])
      else if sweepPauses t then
        ((id, t) :: (sweep rest).1, id :: (sweep rest).2)
      else ((id, t) :: (sweep rest).1, (sweep rest).2) := by
  by_cases h1 : (t.stop_at_ratio && sweepEligibleState t.state) = true <;>
    by_cases h2 : sweepHitsRatio t = true <;>
      by_cases h3 : t.remove_at_ratio = true <;>
        by_cases h4 : t.handlePaused = true <;>
          simp [sweep, sweepRemoves, sweepPauses, sweepQualifies,
            h1, h2, h3, h4]

/-- Claim C5 as stated: a single sweep handles every qualifying torrent,
removing those marked remove-at-ratio and pausing the others. -/
def c5_claim : Prop :=
  ∀ (reg : List (String × SweepTorrent)) (id : String) (t : SweepTorrent),
    (id, t) ∈ reg → sweepQualifies t = true →
    (t.remove_at_ratio = true →
      ((sweep reg).1.map Prod.fst).contains id = false) ∧
    (t.remove_at_ratio = false →
      (t.handlePaused = true ∨ (sweep reg).2.contains id = true))

/-- A torrent qualifying for ratio-based removal: stop-at-ratio and
remove-at-ratio set, stop ratio 1, seeding and finished with ratio 3/2. -/
def c5_tq : SweepTorrent :=
  ⟨true, 1, true, "Seeding", ⟨3, 2⟩, true, false⟩

/-- A torrent qualifying for ratio-based pausing: as `c5_tq` but without
remove-at-ratio and with a running handle. -/
def c5_tp : SweepTorrent :=
  ⟨true, 1, false, "Seeding", ⟨3, 2⟩, true, false⟩

theorem c5_tq_qualifies : sweepQualifies c5_tq = true := by
  have hr : decide (get_ratio c5_tq.status ≥ c5_tq.stop_ratio) = true :=
    decide_eq_true (by norm_num [get_ratio, c5_tq])
  unfold sweepQualifies sweepHitsRatio
  rw [hr]
  rfl

theorem c5_tp_qualifies : sweepQualifies c5_tp = true := by
  have hr : decide (get_ratio c5_tp.status ≥ c5_tp.stop_ratio) = true :=
    decide_eq_true (by norm_num [get_ratio, c5_tp])
  unfold sweepQualifies sweepHitsRatio
  rw [hr]
  rfl

theorem c5_tq_removes : sweepRemoves c5_tq = true := by
  unfold sweepRemoves
  rw [c5_tq_qualifies]
  rfl

theorem c5_tp_removes_false : sweepRemoves c5_tp = false := by
  unfold sweepRemoves
  rw [c5_tp_qualifies]
  rfl

theorem c5_tp_pauses : sweepPauses c5_tp = true := by
  unfold sweepPauses
  rw [c5_tp_qualifies]
  rfl

/-- Claim C5 counterexample: with two torrents both qualifying for
ratio-based removal, the sweep removes only the first and then breaks, so
the second remains in the registry, contradicting the claim that all
qualifying torrents are handled in the same sweep. -/
theorem c5_counterexample : ¬ c5_claim := by
  intro h
  have hmem : ("b", c5_tq) ∈ [("a", c5_tq), ("b", c5_tq)] := by simp
  have hc :=
    (h [("a", c5_tq), ("b", c5_tq)] "b" c5_tq hmem c5_tq_qualifies).1 rfl
  have heval :
      ((sweep [("a", c5_tq), ("b", c5_tq)]).1.map Prod.fst).contains "b"
        = true := by
    simp [sweep_cons, c5_tq_removes]
  rw [heval] at hc
  exact absurd hc (by simp)

/-- Claim C5 amended: when no torrent qualifies for removal the sweep
visits the whole registry, leaving it unchanged and calling pause()
exactly on the qualifying non-remove torrents whose handles are not
already paused; when some torrent qualifies for removal, the sweep
removes the first such torrent in iteration order and stops there, having
paused only the qualifying torrents appearing before it — later
qualifying torrents are left for a subsequent sweep. -/
theorem c5_amended_theorem :
    (∀ reg : List (String × SweepTorrent),
      (∀ p ∈ reg, sweepRemoves p.2 = false) →
      sweep reg = (reg, (reg.filter fun p => sweepPauses p.2).map Prod.fst)) ∧
    (∀ (pre : List (String × SweepTorrent)) (r : String × SweepTorrent)
      (post : List (String × SweepTorrent)),
      (∀ p ∈ pre, sweepRemoves p.2 = false) → sweepRemoves r.2 = true →
      sweep (pre ++ r :: post) =
        (pre ++ post, (pre.filter fun p => sweepPauses p.2).map Prod.fst)) := by
  constructor
  · intro reg
    induction reg with
    | nil => intro _; rfl
    | cons p rest ih =>
      intro h
      obtain ⟨id, t⟩ := p
      have hrest := ih fun q hq => h q (List.mem_cons_of_mem _ hq)
      have hp : sweepRemoves t = false := h (id, t) (List.mem_cons_self _ _)
      cases hsp : sweepPauses t <;>
        simp [sweep_cons, hp, hsp, hrest, List.filter_cons]
  · intro pre r post
    induction pre with
    | nil =>
      intro _ hr
      obtain ⟨id, t⟩ := r
      simp [sweep_cons, hr]
    | cons p pre ih =>
      intro h hr
      obtain ⟨id, t⟩ := p
      have hpre := (ih fun q hq => h q (List.mem_cons_of_mem _ hq)) hr
      have hp : sweepRemoves t = false := h (id, t) (List.mem_cons_self _ _)
      cases hsp : sweepPauses t <;>
        simp [sweep_cons, hp, hsp, hpre, List.filter_cons]

/-- Witness for the amended C5: a sweep over a pause-qualifying torrent
followed by two remove-qualifying torrents removes exactly the first
remove-qualifying one, pauses the first torrent, and keeps the last. -/
theorem c5_amended_witness :
    sweep [("p", c5_tp), ("a", c5_tq), ("b", c5_tq)] =
      ([("p", c5_tp), ("b", c5_tq)], ["p"]) := by
  have h := c5_amended_theorem.2 [("p", c5_tp)] ("a", c5_tq) [("b", c5_tq)]
    (by intro p hp; simp at hp; rw [hp]; exact c5_tp_removes_false)
    c5_tq_removes
  simpa [c5_tp_pauses] using h

/-! ## Admission of torrents: `TorrentManager.add` (claims C3, C7)

We model the registry as an association list from torrent id to the entry
data relevant to the claims (owner, shared flag, tracker list), the caller
by its session user and authorization level, and a parsed descriptor by
its info hash and tracker list.  The engine (libtorrent) is an external
collaborator: per the interface description, an add with
`duplicate_is_error = True` for an id the session already holds raises,
which `add` catches, leaving an invalid handle and a bare return. -/

/-- A tracker entry: announce url and tier. -/
structure Tracker where
  url : String
  tier : Nat
deriving DecidableEq, Repr

/-- The registry data of one managed torrent used by `add` and
`get_torrent_list`. -/
structure Entry where
  owner : String
  shared : Bool
  trackers : List Tracker
deriving DecidableEq, Repr

/-- The registry: torrent id to entry, in insertion order. -/
abbrev Registry := List (String × Entry)

/-- The requesting session: user name and whether it holds the
administrator authorization level. -/
structure Caller where
  user : String
  isAdmin : Bool
deriving DecidableEq, Repr

/-- Shallow embedding of `TorrentManager.get_torrent_list`
(torrentmanager.py lines 297-308): administrators see every id;
other sessions see only torrents they own or that are shared. -/
def get_torrent_list (reg : Registry) (c : Caller) : List String :=
  if c.isAdmin then reg.map Prod.fst
  else (reg.filter fun p => p.2.owner = c.user ∨ p.2.shared = true).map
    Prod.fst

/-- A parsed torrent descriptor (`lt.torrent_info`): its info hash and its
tracker list. -/
structure TorrentInfo where
  infoHash : String
  trackers : List Tracker
deriving DecidableEq, Repr

/-- The observable outcome of one `TorrentManager.add` call.  The
`raisedInvalidArgument` variant is never produced by the embedded code; it
stands for the surfaced InvalidArgument failure that the specification
describes for malformed add requests. -/
inductive AddOutcome where
  /-- A bare `return`: Python None, nothing registered, no event. -/
  | returnedNone
  /-- The duplicate branch: trackers merged into the existing torrent,
  bare return, no creation event. -/
  | mergedExisting
  /-- The engine rejected the add (or produced an invalid handle); alert
  manager resumed and bare return. -/
  | engineRejected
  /-- A Torrent object was registered and TorrentAddedEvent emitted. -/
  | added (id : String)
  /-- Never produced: the InvalidArgument failure of the specification. -/
  | raisedInvalidArgument
deriving DecidableEq, Repr

/-- The tracker-merge of the duplicate branch of `add` (torrentmanager.py
lines 419-441): the existing tracker list is kept and every descriptor
tracker whose url is not already present is appended. -/
def mergeTrackerLists (existing newTs : List Tracker) : List Tracker :=
  existing ++ newTs.filter fun t => ¬ (existing.map Tracker.url).contains t.url

/-- Replace the tracker list of the entry with the given id by its merge
with the descriptor trackers (the effect of `set_trackers` in the
duplicate branch). -/
def mergeInto (reg : Registry) (id : String) (newTs : List Tracker) :
    Registry :=
  reg.map fun p =>
    if p.1 = id then (p.1, { p.2 with trackers := mergeTrackerLists p.2.trackers newTs })
    else p

/-- The engine-side `session.add_torrent` with `duplicate_is_error = True`
followed by registration of the new Torrent object (torrentmanager.py
lines 470-557): a duplicate id makes the engine raise, which is caught
and surfaces as an invalid handle and a bare return; otherwise the entry
is registered under the caller (falling back to "localclient" handling is
outside this model) and TorrentAddedEvent is emitted. -/
def engineAddAndRegister (reg : Registry) (c : Caller) (id : String)
    (trackers : List Tracker) : Registry × AddOutcome :=
  if (reg.map Prod.fst).contains id then (reg, .engineRejected)
  else (reg ++ [(id, ⟨c.user, false, trackers⟩)], .added id)

/-- Shallow embedding of the control flow of `TorrentManager.add`
(torrentmanager.py lines 347-557) for the aspects the claims depend on.
`filedump` is `some none` for raw descriptor bytes that fail to decode and
`some (some ti)` for ones decoding to `ti`; the state path carries the
persisted torrent id; the magnet path carries the id the engine would
derive from the URI.  The early exit when no source argument is supplied
is a bare return (torrentmanager.py lines 356-358); a descriptor whose id
is in the caller-visible torrent list triggers the tracker merge and a
bare return; everything else reaches the engine add. -/
def TorrentManager.add (reg : Registry) (c : Caller)
    (torrent_info : Option TorrentInfo) (state : Option String)
    (filedump : Option (Option TorrentInfo)) (magnet : Option String) :
    Registry × AddOutcome :=
  if torrent_info.isNone ∧ state.isNone ∧ filedump.isNone ∧ magnet.isNone
  then (reg, .returnedNone)
  else
    match filedump, torrent_info with
    | some none, _ => (reg, .returnedNone)
    | some (some ti), _ =>
        if (get_torrent_list reg c).contains ti.infoHash then
          (mergeInto reg ti.infoHash ti.trackers, .mergedExisting)
        else engineAddAndRegister reg c ti.infoHash ti.trackers
    | none, some ti =>
        if (get_torrent_list reg c).contains ti.infoHash then
          (mergeInto reg ti.infoHash ti.trackers, .mergedExisting)
        else engineAddAndRegister reg c ti.infoHash ti.trackers
    | none, none =>
        match state, magnet with
        | some sid, _ => engineAddAndRegister reg c sid []
        | none, some m => engineAddAndRegister reg c m []
        | none, none => (reg, .returnedNone)

/-- How many of the four source arguments were supplied. -/
def suppliedCount (torrent_info : Option TorrentInfo) (state : Option String)
    (filedump : Option (Option TorrentInfo)) (magnet : Option String) : Nat :=
  (if torrent_info.isSome then 1 else 0) + (if state.isSome then 1 else 0) +
    (if filedump.isSome then 1 else 0) + (if magnet.isSome then 1 else 0)

/-- The urls of the trackers recorded for an id in the registry. -/
def entryTrackerUrls (reg : Registry) (id : String) : List String :=
  (((reg.find? fun p => p.1 = id).map fun p => p.2.trackers).getD []).map
    Tracker.url

/-- Claim C3 as stated: adding a descriptor whose id is already registered
never creates a second entity, leaves the id set unchanged, merges the new
trackers of the descriptor into the existing tracker list, and emits no
creation event. -/
def c3_claim : Prop :=
  ∀ (reg : Registry) (c : Caller) (ti : TorrentInfo),
    (reg.map Prod.fst).contains ti.infoHash = true →
    (TorrentManager.add reg c (some ti) none none none).1.map Prod.fst
        = reg.map Prod.fst ∧
    (∀ t ∈ ti.trackers,
      (entryTrackerUrls (TorrentManager.add reg c (some ti) none none none).1
        ti.infoHash).contains t.url = true) ∧
    (TorrentManager.add reg c (some ti) none none none).2 ≠ .added ti.infoHash

/-- Claim C3 counterexample: the duplicate check consults the
caller-visible torrent list, not the registry.  For a non-administrator
session adding a descriptor whose id belongs to an unshared torrent of
another user, the merge branch is skipped, the engine rejects the
duplicate, and the new tracker is never merged into the existing tracker
list — contradicting the claim. -/
theorem c3_counterexample : ¬ c3_claim := by
  intro h
  have hc := (h [("h1", ⟨"alice", false, []⟩)] ⟨"bob", false⟩
      ⟨"h1", [⟨"udp-tr", 0⟩]⟩ (by decide)).2.1 ⟨"udp-tr", 0⟩ (by simp)
  have heval :
      (entryTrackerUrls
        (TorrentManager.add [("h1", ⟨"alice", false, []⟩)] ⟨"bob", false⟩
          (some ⟨"h1", [⟨"udp-tr", 0⟩]⟩) none none none).1 "h1").contains
        "udp-tr" = false := by decide
  rw [heval] at hc
  exact absurd hc (by simp)

/-- For the amended C3: mapping `mergeInto` preserves the id list. -/
theorem mergeInto_map_fst (reg : Registry) (id : String)
    (ts : List Tracker) : (mergeInto reg id ts).map Prod.fst
      = reg.map Prod.fst := by
  induction reg with
  | nil => rfl
  | cons p rest ih =>
    by_cases hp : p.1 = id <;> simp [mergeInto, hp] at ih ⊢ <;> exact ih

/-- For the amended C3: `find?` after `mergeInto` returns the found entry
with its tracker list merged. -/
theorem find?_mergeInto (reg : Registry) (id : String) (ts : List Tracker) :
    (mergeInto reg id ts).find? (fun p => p.1 = id) =
      (reg.find? fun p => p.1 = id).map fun p =>
        (p.1, { p.2 with trackers := mergeTrackerLists p.2.trackers ts }) := by
  induction reg with
  | nil => rfl
  | cons p rest ih =>
    have hcons : mergeInto (p :: rest) id ts =
        (if p.1 = id then
          (p.1, { p.2 with trackers := mergeTrackerLists p.2.trackers ts })
        else p) :: mergeInto rest id ts := rfl
    rw [hcons]
    by_cases hp : p.1 = id
    · rw [if_pos hp]
      rw [List.find?_cons_of_pos _ (by simp [hp]),
        List.find?_cons_of_pos _ (by simp [hp])]
      rfl
    · rw [if_neg hp]
      rw [List.find?_cons_of_neg _ (by simp [hp]),
        List.find?_cons_of_neg _ (by simp [hp])]
      exact ih

/-- For the amended C3: after `mergeInto`, the tracker list recorded for a
registered id is the merge of the previously recorded list. -/
theorem entryTrackerUrls_mergeInto (reg : Registry) (id : String)
    (ts : List Tracker) (hmem : (reg.map Prod.fst).contains id = true) :
    entryTrackerUrls (mergeInto reg id ts) id =
      (mergeTrackerLists
        (((reg.find? fun p => p.1 = id).map fun p => p.2.trackers).getD [])
        ts).map Tracker.url := by
  have hex : ∃ x ∈ reg, (fun p => decide (p.1 = id)) x = true := by
    have : id ∈ reg.map Prod.fst := by simpa using hmem
    obtain ⟨q, hq, hq2⟩ := List.mem_map.mp this
    exact ⟨q, hq, by simp [hq2]⟩
  have hsome : (reg.find? fun p => p.1 = id).isSome := by
    rw [List.find?_isSome]
    simpa using hex
  obtain ⟨q, hq⟩ := Option.isSome_iff_exists.mp hsome
  unfold entryTrackerUrls
  rw [find?_mergeInto, hq]
  simp

/-- For the amended C3: every descriptor tracker url ends up in the merged
list. -/
theorem mergeTrackerLists_complete (existing ts : List Tracker)
    (t : Tracker) (ht : t ∈ ts) :
    ((mergeTrackerLists existing ts).map Tracker.url).contains t.url
      = true := by
  by_cases hin : ∃ a ∈ existing, a.url = t.url
  · simp [mergeTrackerLists]
    exact Or.inl hin
  · simp [mergeTrackerLists]
    right
    exact ⟨t, ⟨ht, fun x hx hxeq => hin ⟨x, hx, hxeq⟩⟩, rfl⟩

/-- Claim C3 amended: adding a descriptor whose id is already registered
never creates a second entity, leaves the registry id list unchanged, and
emits no creation event; the tracker merge, however, happens only when the
existing torrent is visible to the calling session (administrator, owner,
or shared) — otherwise the duplicate travels to the engine and is
rejected there with no tracker merge. -/
theorem c3_amended_theorem (reg : Registry) (c : Caller) (ti : TorrentInfo)
    (hmem : (reg.map Prod.fst).contains ti.infoHash = true) :
    (TorrentManager.add reg c (some ti) none none none).1.map Prod.fst
        = reg.map Prod.fst ∧
    (TorrentManager.add reg c (some ti) none none none).2
        ≠ .added ti.infoHash ∧
    ((get_torrent_list reg c).contains ti.infoHash = true →
      ∀ t ∈ ti.trackers,
        (entryTrackerUrls
          (TorrentManager.add reg c (some ti) none none none).1
          ti.infoHash).contains t.url = true) := by
  by_cases hvis : (get_torrent_list reg c).contains ti.infoHash = true
  · have hvis2 : ti.infoHash ∈ get_torrent_list reg c := by simpa using hvis
    have hstep :
        TorrentManager.add reg c (some ti) none none none
          = (mergeInto reg ti.infoHash ti.trackers, .mergedExisting) := by
      simp [TorrentManager.add, hvis2]
    refine ⟨?_, ?_, ?_⟩
    · rw [hstep]; exact mergeInto_map_fst reg ti.infoHash ti.trackers
    · rw [hstep]; simp
    · intro _ t ht
      rw [hstep]
      rw [show (mergeInto reg ti.infoHash ti.trackers, AddOutcome.mergedExisting).1
        = mergeInto reg ti.infoHash ti.trackers from rfl]
      rw [entryTrackerUrls_mergeInto reg ti.infoHash ti.trackers hmem]
      exact mergeTrackerLists_complete _ _ t ht
  · have hvis2 : ti.infoHash ∉ get_torrent_list reg c := by simpa using hvis
    have hmem2 : ti.infoHash ∈ reg.map Prod.fst := by simpa using hmem
    have hstep :
        TorrentManager.add reg c (some ti) none none none
          = (reg, .engineRejected) := by
      simp [TorrentManager.add, hvis2, engineAddAndRegister, hmem2, hmem]
    refine ⟨by rw [hstep], by rw [hstep]; simp, fun hv => absurd hv hvis⟩

/-- Witness for the amended C3: an administrator re-adding a registered
descriptor with one new tracker leaves the id list unchanged, emits no
creation event, and the new tracker url is merged. -/
theorem c3_amended_witness :
    (TorrentManager.add [("h1", ⟨"alice", false, [⟨"t0", 0⟩]⟩)]
        ⟨"root", true⟩ (some ⟨"h1", [⟨"t1", 1⟩]⟩) none none none).1.map
        Prod.fst = ["h1"] ∧
    (entryTrackerUrls
        (TorrentManager.add [("h1", ⟨"alice", false, [⟨"t0", 0⟩]⟩)]
          ⟨"root", true⟩ (some ⟨"h1", [⟨"t1", 1⟩]⟩) none none none).1
        "h1").contains "t1" = true := by
  have h := c3_amended_theorem [("h1", ⟨"alice", false, [⟨"t0", 0⟩]⟩)]
    ⟨"root", true⟩ ⟨"h1", [⟨"t1", 1⟩]⟩ (by decide)
  exact ⟨h.1, h.2.2 (by decide) ⟨"t1", 1⟩ (by simp)⟩

/-- Claim C7 as stated: unless exactly one of parsed descriptor, raw
descriptor bytes, magnet URI and prior state is supplied, `add` fails with
a surfaced InvalidArgument error and registers nothing. -/
def c7_claim : Prop :=
  ∀ (reg : Registry) (c : Caller) (torrent_info : Option TorrentInfo)
    (state : Option String) (filedump : Option (Option TorrentInfo))
    (magnet : Option String),
    suppliedCount torrent_info state filedump magnet ≠ 1 →
    (TorrentManager.add reg c torrent_info state filedump magnet).2
        = .raisedInvalidArgument ∧
    (TorrentManager.add reg c torrent_info state filedump magnet).1 = reg

/-- Claim C7 counterexample: calling `add` with none of the four source
arguments makes it log and return None — the outcome is a bare return,
not a surfaced InvalidArgument failure. -/
theorem c7_counterexample : ¬ c7_claim := by
  intro h
  have hc := (h [] ⟨"bob", false⟩ none none none none (by decide)).1
  have heval :
      (TorrentManager.add [] ⟨"bob", false⟩ none none none none).2
        = .returnedNone := rfl
  rw [heval] at hc
  exact absurd hc (by simp)

/-- Claim C7 amended: when none of the four source arguments is supplied,
`add` returns None without raising anything, and neither creates nor
registers a torrent — the registry is unchanged and no creation event is
emitted; and no combination of source arguments, in particular supplying
more than one of them, is ever rejected with an InvalidArgument failure:
`add` contains no exactly-one check, so every call falls through to the
normal duplicate-check and engine-add logic. -/
theorem c7_amended_theorem (reg : Registry) (c : Caller) :
    TorrentManager.add reg c none none none none = (reg, .returnedNone) ∧
    (∀ (torrent_info : Option TorrentInfo) (state : Option String)
      (filedump : Option (Option TorrentInfo)) (magnet : Option String),
      (TorrentManager.add reg c torrent_info state filedump magnet).2
        ≠ .raisedInvalidArgument) := by
  refine ⟨rfl, ?_⟩
  intro torrent_info state filedump magnet
  rcases filedump with _ | ofd
  · rcases torrent_info with _ | ti
    · rcases state with _ | sid
      · rcases magnet with _ | m
        · simp [TorrentManager.add]
        · simp [TorrentManager.add, engineAddAndRegister]
          split_ifs <;> simp
      · simp [TorrentManager.add, engineAddAndRegister]
        split_ifs <;> simp
    · simp [TorrentManager.add, engineAddAndRegister]
      split_ifs <;> simp
  · rcases ofd with _ | d
    · simp [TorrentManager.add]
    · simp [TorrentManager.add, engineAddAndRegister]
      split_ifs <;> simp

/-- Witness for the amended C7: the all-None call at the empty registry
returns None without raising, and a call supplying three source arguments
at once is not rejected with InvalidArgument. -/
theorem c7_amended_witness :
    TorrentManager.add [] ⟨"u", false⟩ none none none none
      = ([], .returnedNone) ∧
    (TorrentManager.add [] ⟨"u", false⟩ (some ⟨"h9", []⟩) (some "h9")
        none (some "m9")).2 ≠ .raisedInvalidArgument :=
  ⟨(c7_amended_theorem [] ⟨"u", false⟩).1,
    (c7_amended_theorem [] ⟨"u", false⟩).2 (some ⟨"h9", []⟩) (some "h9")
      none (some "m9")⟩

/-! ## Queue reordering boundaries (claim C8)

The queue model: the registered torrents listed in queue-position order
(the queue position of an id is its index in the list), each carrying its
is_finished flag.  `queued_torrents` is the active-queue set maintained by
the manager: finished torrents are removed from it by
`on_alert_torrent_finished`, so it holds the unfinished entries. -/

/-- Registered torrents in queue-position order with their is_finished
flags. -/
abbrev QueueReg := List (String × Bool)

/-- The queue position of a torrent: its index in queue order, as returned
by `handle.queue_position()`. -/
def queuePosition (reg : QueueReg) (id : String) : Int :=
  ((reg.findIdx fun p => p.1 = id : Nat) : Int)

/-- The size of the `queued_torrents` set: the torrents not yet finished. -/
def queuedCount (reg : QueueReg) : Nat :=
  (reg.filter fun p => !p.2).length

/-- Shallow embedding of `TorrentManager.queue_top` (torrentmanager.py
lines 874-880).  The pair is (returned boolean, whether the engine
reordering command was issued). -/
def queue_top (reg : QueueReg) (id : String) : Bool × Bool :=
  if queuePosition reg id = 0 then (false, false) else (true, true)

/-- Shallow embedding of `TorrentManager.queue_up` (torrentmanager.py
lines 882-888). -/
def queue_up (reg : QueueReg) (id : String) : Bool × Bool :=
  if queuePosition reg id = 0 then (false, false) else (true, true)

/-- Shallow embedding of `TorrentManager.queue_down` (torrentmanager.py
lines 890-896): the bottom-boundary check compares the queue position with
`len(self.queued_torrents) - 1`. -/
def queue_down (reg : QueueReg) (id : String) : Bool × Bool :=
  if queuePosition reg id = (queuedCount reg : Int) - 1 then (false, false)
  else (true, true)

/-- Shallow embedding of `TorrentManager.queue_bottom` (torrentmanager.py
lines 898-904). -/
def queue_bottom (reg : QueueReg) (id : String) : Bool × Bool :=
  if queuePosition reg id = (queuedCount reg : Int) - 1 then (false, false)
  else (true, true)

/-- Claim C8 as stated: queue_top and queue_up are no-ops returning false
exactly at position 0; queue_down and queue_bottom are no-ops returning
false exactly at the last position over all non-removed torrents (index
`reg.length - 1`); and the engine command is issued exactly when true is
returned. -/
def c8_claim : Prop :=
  ∀ (reg : QueueReg) (id : String),
    (reg.map Prod.fst).contains id = true →
    ((queue_top reg id).1 = false ↔ queuePosition reg id = 0) ∧
    ((queue_up reg id).1 = false ↔ queuePosition reg id = 0) ∧
    ((queue_down reg id).1 = false ↔
      queuePosition reg id = (reg.length : Int) - 1) ∧
    ((queue_bottom reg id).1 = false ↔
      queuePosition reg id = (reg.length : Int) - 1) ∧
    (queue_top reg id).2 = (queue_top reg id).1 ∧
    (queue_up reg id).2 = (queue_up reg id).1 ∧
    (queue_down reg id).2 = (queue_down reg id).1 ∧
    (queue_bottom reg id).2 = (queue_bottom reg id).1

/-- Claim C8 counterexample: with torrent "a" finished (hence outside the
active-queue set) at position 0 and unfinished "b" at position 1, "b" is
at the last position over all non-removed torrents, yet queue_down
compares against the active-queue size (1) minus 1 and therefore issues
the command and returns true — contradicting the claimed boundary. -/
theorem c8_counterexample : ¬ c8_claim := by
  intro h
  have hc := ((h [("a", true), ("b", false)] "b" (by decide)).2.2.1).mpr
    (by decide)
  have heval : (queue_down [("a", true), ("b", false)] "b").1 = true := by
    decide
  rw [heval] at hc
  exact absurd hc (by simp)

/-- Claim C8 amended: the top boundary is position 0 as claimed, but the
bottom boundary used by queue_down and queue_bottom is position
`|queued_torrents| - 1`, the size of the active-queue set (which excludes
finished torrents) minus one — this coincides with the last position over
all non-removed torrents exactly when no registered torrent is finished.
The engine command is issued exactly when true is returned. -/
theorem c8_amended_theorem (reg : QueueReg) (id : String) :
    ((queue_top reg id).1 = false ↔ queuePosition reg id = 0) ∧
    ((queue_up reg id).1 = false ↔ queuePosition reg id = 0) ∧
    ((queue_down reg id).1 = false ↔
      queuePosition reg id = (queuedCount reg : Int) - 1) ∧
    ((queue_bottom reg id).1 = false ↔
      queuePosition reg id = (queuedCount reg : Int) - 1) ∧
    (queue_top reg id).2 = (queue_top reg id).1 ∧
    (queue_up reg id).2 = (queue_up reg id).1 ∧
    (queue_down reg id).2 = (queue_down reg id).1 ∧
    (queue_bottom reg id).2 = (queue_bottom reg id).1 ∧
    ((reg.all fun p => !p.2) = true →
      ((queue_down reg id).1 = false ↔
        queuePosition reg id = (reg.length : Int) - 1)) := by
  have hfilter : (reg.all fun p => !p.2) = true →
      queuedCount reg = reg.length := by
    intro hall
    unfold queuedCount
    rw [List.filter_eq_self.mpr]
    intro a ha
    exact (List.all_eq_true.mp hall) a ha
  refine ⟨?_, ?_, ?_, ?_, ?_, ?_, ?_, ?_, ?_⟩
  · by_cases hp : queuePosition reg id = 0 <;> simp [queue_top, hp]
  · by_cases hp : queuePosition reg id = 0 <;> simp [queue_up, hp]
  · by_cases hp : queuePosition reg id = (queuedCount reg : Int) - 1 <;>
      simp [queue_down, hp]
  · by_cases hp : queuePosition reg id = (queuedCount reg : Int) - 1 <;>
      simp [queue_bottom, hp]
  · by_cases hp : queuePosition reg id = 0 <;> simp [queue_top, hp]
  · by_cases hp : queuePosition reg id = 0 <;> simp [queue_up, hp]
  · by_cases hp : queuePosition reg id = (queuedCount reg : Int) - 1 <;>
      simp [queue_down, hp]
  · by_cases hp : queuePosition reg id = (queuedCount reg : Int) - 1 <;>
      simp [queue_bottom, hp]
  · intro hall
    have hq : ((queuedCount reg : Int)) = ((reg.length : Int)) := by
      rw [hfilter hall]
    by_cases hp : queuePosition reg id = (reg.length : Int) - 1 <;>
      simp [queue_down, hq, hp]

/-- Witness for the amended C8: with two unfinished torrents, queue_down
on the second is a no-op returning false at the last position. -/
theorem c8_amended_witness :
    (queue_down [("a", false), ("b", false)] "b").1 = false := by
  have h := (c8_amended_theorem [("a", false), ("b", false)] "b").2.2.2.2.2.2.2.2
    (by decide)
  exact h.mpr (by decide)

/-! ## The is_finished lifecycle flag (claim C9)

The flag is mutated by three pieces of code: `on_alert_torrent_finished`
sets it to true, `on_alert_state_changed` resets it to false when the
recomputed state is Checking, Checking Resume Data or Downloading, and
`Torrent.set_file_priorities` resets it to false when a previously
excluded file (priority 0) is re-included for download. -/

/-- The per-torrent state read and written by the is_finished-relevant
code paths. -/
structure FinState where
  is_finished : Bool
  file_priorities : List Nat
  num_files : Nat
  compact : Bool
  state : String
deriving DecidableEq, Repr

/-- The events that can touch the is_finished flag: the
torrent-finished alert, a state-changed alert carrying the engine status
that `update_state` recomputes from, and a set_file_priorities call. -/
inductive TorrentEvent where
  | finishedAlert
  | stateChanged (engine : EngineStatus)
  | setFilePriorities (prios : List Nat)
deriving DecidableEq, Repr

/-- The re-inclusion test of `Torrent.set_file_priorities` (torrent.py
lines 368-376): a zero priority was stored, and some index stored as 0 is
now requested with a positive priority. -/
def reincludesExcluded (old new : List Nat) : Bool :=
  old.contains 0 &&
    ((old.zip new).any fun pr => pr.1 == 0 && decide (0 < pr.2))

/-- Shallow embedding of `Torrent.set_file_priorities` (torrent.py lines
353-383) restricted to its effect on `is_finished` and the stored
priorities.  On a length mismatch or with compact allocation the stored
priorities are re-read from the engine (modelled as unchanged); otherwise
re-including excluded data resets `is_finished`. -/
def Torrent.set_file_priorities (s : FinState) (prios : List Nat) :
    FinState :=
  if prios.length ≠ s.num_files then s
  else if s.compact then s
  else
    { s with
      is_finished :=
        if reincludesExcluded s.file_priorities prios then false
        else s.is_finished,
      file_priorities := prios }

/-- One step of the is_finished lifecycle: the effect of each event on the
torrent (torrentmanager.py lines 929-969 and 1079-1097, torrent.py lines
353-383).  The finished alert sets the flag; the state-changed handler
recomputes the state via `update_state` and clears the flag when the new
state is Checking, Checking Resume Data or Downloading. -/
def stepEvent (s : FinState) (e : TorrentEvent) : FinState :=
  match e with
  | .finishedAlert => { s with is_finished := true }
  | .stateChanged eng =>
      let st := (update_state eng).state
      if st = "Checking" ∨ st = "Checking Resume Data" ∨ st = "Downloading"
      then { s with state := st, is_finished := false }
      else { s with state := st }
  | .setFilePriorities prios => Torrent.set_file_priorities s prios

/-- Claim C9 as stated: the only circumstance in which is_finished resets
from true to false is a set_file_priorities call re-including previously
excluded data. -/
def c9_claim : Prop :=
  ∀ (s : FinState) (e : TorrentEvent),
    s.is_finished = true → (stepEvent s e).is_finished = false →
    ∃ prios, e = .setFilePriorities prios ∧
      reincludesExcluded s.file_priorities prios = true

/-- Claim C9 counterexample: a finished torrent receiving a state-changed
alert whose recomputed state is Checking (for example after a forced
recheck) has is_finished reset to false by `on_alert_state_changed`
without any file priority change — contradicting the claim. -/
theorem c9_counterexample : ¬ c9_claim := by
  intro h
  obtain ⟨prios, heq, _⟩ := h ⟨true, [1], 1, false, "Seeding"⟩
    (.stateChanged ⟨.checkingFiles, "", false, false, false⟩) rfl rfl
  exact absurd heq (by simp)

/-- Claim C9 amended: is_finished resets from true to false only when
either previously excluded data is re-included by set_file_priorities, or
a state-changed alert recomputes the state to Checking, Checking Resume
Data or Downloading (the reset `on_alert_state_changed` performs because
the torrent may need to download data after checking). -/
theorem c9_amended_theorem (s : FinState) (e : TorrentEvent)
    (hfin : s.is_finished = true)
    (hreset : (stepEvent s e).is_finished = false) :
    (∃ prios, e = .setFilePriorities prios ∧
      reincludesExcluded s.file_priorities prios = true) ∨
    (∃ eng, e = .stateChanged eng ∧
      ((update_state eng).state = "Checking" ∨
        (update_state eng).state = "Checking Resume Data" ∨
        (update_state eng).state = "Downloading")) := by
  cases e with
  | finishedAlert => simp [stepEvent] at hreset
  | stateChanged eng =>
      right
      refine ⟨eng, rfl, ?_⟩
      by_cases hc : (update_state eng).state = "Checking" ∨
          (update_state eng).state = "Checking Resume Data" ∨
          (update_state eng).state = "Downloading"
      · exact hc
      · exfalso
        simp only [stepEvent, if_neg hc] at hreset
        rw [hfin] at hreset
        exact absurd hreset (by simp)
  | setFilePriorities prios =>
      left
      refine ⟨prios, rfl, ?_⟩
      by_cases h1 : prios.length ≠ s.num_files
      · exfalso
        simp only [stepEvent, Torrent.set_file_priorities, if_pos h1] at hreset
        rw [hfin] at hreset
        exact absurd hreset (by simp)
      · by_cases h2 : s.compact = true
        · exfalso
          simp only [stepEvent, Torrent.set_file_priorities, if_neg h1,
            if_pos h2] at hreset
          rw [hfin] at hreset
          exact absurd hreset (by simp)
        · by_cases h3 : reincludesExcluded s.file_priorities prios = true
          · exact h3
          · exfalso
            simp only [stepEvent, Torrent.set_file_priorities, if_neg h1,
              if_neg h2] at hreset
            simp only [if_neg h3] at hreset
            rw [hfin] at hreset
            exact absurd hreset (by simp)

/-- Witness for the amended C9: setting priorities [1] over stored [0]
with one file re-includes excluded data and resets the flag, and the
theorem classifies the reset as a re-inclusion. -/
theorem c9_amended_witness :
    (∃ prios, TorrentEvent.setFilePriorities ([1] : List Nat)
        = .setFilePriorities prios ∧
      reincludesExcluded [0] prios = true) ∨
    (∃ eng, TorrentEvent.setFilePriorities ([1] : List Nat)
        = .stateChanged eng ∧
      ((update_state eng).state = "Checking" ∨
        (update_state eng).state = "Checking Resume Data" ∨
        (update_state eng).state = "Downloading")) := by
  exact c9_amended_theorem ⟨true, [0], 1, false, "Seeding"⟩
    (.setFilePriorities [1]) rfl rfl

/-! ## Failure of engine deregistration in remove (claim C10) -/

/-- The registry data of one torrent relevant to `remove`. -/
structure TorrentRec where
  is_finished : Bool
deriving DecidableEq, Repr

/-- The manager state touched by `TorrentManager.remove`: the registry,
the active-queue set, the on-disk recovery-data map and the set of
persisted per-torrent descriptor files. -/
structure ManagerState where
  torrents : List (String × TorrentRec)
  queued : List String
  resumeFile : List (String × String)
  torrentFiles : List String
deriving DecidableEq, Repr

/-- The observer notifications `remove` can emit. -/
inductive ManagerEvent where
  | preTorrentRemoved (id : String)
  | torrentRemoved (id : String)
deriving DecidableEq, Repr

/-- The result of `remove`: a raised InvalidTorrentError or a boolean. -/
inductive RemoveResult where
  | raisedInvalidTorrent
  | result (b : Bool)
deriving DecidableEq, Repr

/-- Shallow embedding of `TorrentManager.remove` (torrentmanager.py lines
577-654).  An unknown id raises InvalidTorrentError.  Otherwise the
PreTorrentRemovedEvent is emitted first; then `session.remove_torrent` is
attempted, and a RuntimeError or KeyError there is caught and the method
returns False with nothing else done.  On engine success the recovery
data entry, the persisted descriptor file, the active-queue membership
(only when the torrent was not finished) and the registry entry are all
deleted, and TorrentRemovedEvent is emitted. -/
def TorrentManager.remove (st : ManagerState) (id : String)
    (engineRaises : Bool) :
    RemoveResult × ManagerState × List ManagerEvent :=
  if (st.torrents.map Prod.fst).contains id = false then
    (.raisedInvalidTorrent, st, [])
  else if engineRaises then
    (.result false, st, [.preTorrentRemoved id])
  else
    let finished :=
      (((st.torrents.find? fun p => p.1 = id).map
        fun p => p.2.is_finished).getD false)
    (.result true,
      { torrents := st.torrents.filter fun p => ¬ p.1 = id,
        queued := if finished then st.queued
          else st.queued.filter fun q => ¬ q = id,
        resumeFile := st.resumeFile.filter fun p => ¬ p.1 = id,
        torrentFiles := st.torrentFiles.filter fun f => ¬ f = id },
      [.preTorrentRemoved id, .torrentRemoved id])

/-- Claim C10: when the engine deregistration raises during remove of a
registered id, remove returns False, the whole manager state (registry,
active-queue set, recovery-data file, descriptor files) is unchanged, and
only the pre-removal notification was emitted — no TorrentRemovedEvent. -/
theorem c10_theorem (st : ManagerState) (id : String)
    (hmem : (st.torrents.map Prod.fst).contains id = true) :
    TorrentManager.remove st id true
      = (.result false, st, [.preTorrentRemoved id]) := by
  unfold TorrentManager.remove
  rw [hmem]
  rfl

/-- Witness for C10 at a concrete one-torrent state whose engine
deregistration raises. -/
theorem c10_witness :
    TorrentManager.remove ⟨[("h1", ⟨false⟩)], ["h1"], [("h1", "blob")],
        ["h1"]⟩ "h1" true
      = (.result false,
          ⟨[("h1", ⟨false⟩)], ["h1"], [("h1", "blob")], ["h1"]⟩,
          [.preTorrentRemoved "h1"]) := by
  exact c10_theorem ⟨[("h1", ⟨false⟩)], ["h1"], [("h1", "blob")], ["h1"]⟩
    "h1" (by decide)

end Deluge
